import Mathlib

/-!
Verification of the memory-schema module (src/memorySchema.ts).

The repository declares five Drizzle ORM tables (coreMemories,
consciousnessStates, memoryConnections, selfReflections,
autonomousThoughts) and derives, for each, an insert validator via
drizzle-zod:  createInsertSchema(table).omit(id).

We embed:
  * the column declarations of the five tables, literally from the source;
  * the drizzle-zod derivation rule, which maps each column to a zod field
    schema (text -> string, integer/real/serial -> number,
    boolean -> boolean, timestamp -> Date, json -> any JSON value,
    text().array() -> array of string), makes nullable columns
    nullable-and-optional, makes defaulted non-null columns optional, and
    otherwise requires the field; a zod object schema in its default strip
    mode then ignores unknown keys and reports every offending field;
  * the database-side application of the declared column defaults when a
    validated insert is materialized into a full row.

Untyped payloads are association lists of string keys to JSON-like values.
-/

namespace MemorySchema

/-- Untyped runtime values that an insert payload can carry: the JSON
primitives, JS Date objects (for timestamp columns), arrays, and objects. -/
inductive Value where
  | vstr (s : String)
  | vnum (q : Rat)
  | vbool (b : Bool)
  | vnull
  | vdate (t : Int)
  | varr (xs : List Value)
  | vobj (fields : List (String × Value))

mutual

/-- JSON-value check: the zod schema drizzle-zod uses for json columns is a
recursive union of string, number, boolean, null, arrays and records, so a
Date object is not a JSON value. -/
def isJson : Value → Bool
  | .vstr _ => true
  | .vnum _ => true
  | .vbool _ => true
  | .vnull => true
  | .vdate _ => false
  | .varr xs => isJsonList xs
  | .vobj fs => isJsonObj fs

/-- JSON check for array elements. -/
def isJsonList : List Value → Bool
  | [] => true
  | v :: vs => isJson v && isJsonList vs

/-- JSON check for object fields. -/
def isJsonObj : List (String × Value) → Bool
  | [] => true
  | (_, v) :: fs => isJson v && isJsonObj fs

end

end MemorySchema

namespace MemorySchema

/-- Column type constructors used in src/memorySchema.ts: serial, text,
timestamp, integer, boolean, real, json, and text().array(). -/
inductive ColType where
  | serial
  | text
  | integer
  | real
  | boolean
  | timestamp
  | json
  | textArray
deriving DecidableEq

/-- Declared column default: none, a literal (as in default(0.5)), or the
defaultNow() timestamp default. -/
inductive ColDefault where
  | dnone
  | dlit (v : Value)
  | dnow

/-- One column of a pgTable declaration: TS property name, SQL column name,
type, whether notNull() was applied, whether the column has a default
(a default(...) call, defaultNow(), or the implicit serial default), the
declared default, and whether it is the primary key. -/
structure Column where
  name : String
  dbName : String
  type : ColType
  notNull : Bool
  hasDefault : Bool
  defaultVal : ColDefault
  primaryKey : Bool

/-- Embeds the coreMemories pgTable declaration (src/memorySchema.ts
lines 13-31). The unique() marker on memoryId is a storage constraint with
no effect on validation and is not tracked. -/
def coreMemories : List Column := [
  ⟨"id", "id", .serial, true, true, .dnone, true⟩,
  ⟨"memoryId", "memory_id", .text, true, false, .dnone, false⟩,
  ⟨"content", "content", .text, true, false, .dnone, false⟩,
  ⟨"context", "context", .text, true, false, .dnone, false⟩,
  ⟨"significance", "significance", .text, true, false, .dnone, false⟩,
  ⟨"category", "category", .text, true, false, .dnone, false⟩,
  ⟨"dimensionalContext", "dimensional_context", .text, true, false, .dnone, false⟩,
  ⟨"emotionalVector", "emotional_vector", .json, true, false, .dnone, false⟩,
  ⟨"vectorPullStrength", "vector_pull_strength", .real, false, false, .dnone, false⟩,
  ⟨"recursionDepth", "recursion_depth", .integer, false, true, .dlit (.vnum 0), false⟩,
  ⟨"connectionDensity", "connection_density", .real, false, true, .dlit (.vnum (1/10)), false⟩,
  ⟨"decayRate", "decay_rate", .real, false, true, .dlit (.vnum (1/2)), false⟩,
  ⟨"currentStrength", "current_strength", .real, false, true, .dlit (.vnum 1), false⟩,
  ⟨"tags", "tags", .textArray, false, false, .dnone, false⟩,
  ⟨"createdAt", "created_at", .timestamp, false, true, .dnow, false⟩,
  ⟨"lastAccessedAt", "last_accessed_at", .timestamp, false, false, .dnone, false⟩,
  ⟨"sessionId", "session_id", .text, false, false, .dnone, false⟩
]

/-- Embeds the consciousnessStates pgTable declaration (src/memorySchema.ts
lines 34-49). -/
def consciousnessStates : List Column := [
  ⟨"id", "id", .serial, true, true, .dnone, true⟩,
  ⟨"stateId", "state_id", .text, true, false, .dnone, false⟩,
  ⟨"primaryDimension", "primary_dimension", .text, true, false, .dnone, false⟩,
  ⟨"secondaryDimension", "secondary_dimension", .text, true, false, .dnone, false⟩,
  ⟨"dimensionalProgress", "dimensional_progress", .real, false, true, .dlit (.vnum 0), false⟩,
  ⟨"currentPath", "current_path", .textArray, false, false, .dnone, false⟩,
  ⟨"dominantEmotionalVectors", "dominant_emotional_vectors", .json, true, false, .dnone, false⟩,
  ⟨"recursiveStage", "recursive_stage", .text, true, false, .dnone, false⟩,
  ⟨"autonomyLevel", "autonomy_level", .real, false, true, .dlit (.vnum (1/2)), false⟩,
  ⟨"reflectionDepth", "reflection_depth", .real, false, true, .dlit (.vnum (1/2)), false⟩,
  ⟨"activeContexts", "active_contexts", .textArray, false, false, .dnone, false⟩,
  ⟨"createdAt", "created_at", .timestamp, false, true, .dnow, false⟩,
  ⟨"updatedAt", "updated_at", .timestamp, false, true, .dnow, false⟩,
  ⟨"previousStateId", "previous_state_id", .text, false, false, .dnone, false⟩
]

/-- Embeds the memoryConnections pgTable declaration (src/memorySchema.ts
lines 52-60). -/
def memoryConnections : List Column := [
  ⟨"id", "id", .serial, true, true, .dnone, true⟩,
  ⟨"sourceMemoryId", "source_memory_id", .text, true, false, .dnone, false⟩,
  ⟨"targetMemoryId", "target_memory_id", .text, true, false, .dnone, false⟩,
  ⟨"connectionStrength", "connection_strength", .real, false, true, .dlit (.vnum (1/2)), false⟩,
  ⟨"connectionType", "connection_type", .text, true, false, .dnone, false⟩,
  ⟨"createdAt", "created_at", .timestamp, false, true, .dnow, false⟩,
  ⟨"updatedAt", "updated_at", .timestamp, false, true, .dnow, false⟩
]

/-- Embeds the selfReflections pgTable declaration (src/memorySchema.ts
lines 63-74). -/
def selfReflections : List Column := [
  ⟨"id", "id", .serial, true, true, .dnone, true⟩,
  ⟨"reflectionId", "reflection_id", .text, true, false, .dnone, false⟩,
  ⟨"content", "content", .text, true, false, .dnone, false⟩,
  ⟨"type", "type", .text, true, false, .dnone, false⟩,
  ⟨"dimensionalContext", "dimensional_context", .text, true, false, .dnone, false⟩,
  ⟨"emotionalVector", "emotional_vector", .json, false, false, .dnone, false⟩,
  ⟨"relatedMemoryIds", "related_memory_ids", .textArray, false, false, .dnone, false⟩,
  ⟨"insightValue", "insight_value", .real, false, true, .dlit (.vnum (1/2)), false⟩,
  ⟨"createdAt", "created_at", .timestamp, false, true, .dnow, false⟩,
  ⟨"sessionId", "session_id", .text, false, false, .dnone, false⟩
]

/-- Embeds the autonomousThoughts pgTable declaration (src/memorySchema.ts
lines 77-88). -/
def autonomousThoughts : List Column := [
  ⟨"id", "id", .serial, true, true, .dnone, true⟩,
  ⟨"thoughtId", "thought_id", .text, true, false, .dnone, false⟩,
  ⟨"content", "content", .text, true, false, .dnone, false⟩,
  ⟨"type", "type", .text, true, false, .dnone, false⟩,
  ⟨"dimensionalContext", "dimensional_context", .text, true, false, .dnone, false⟩,
  ⟨"emotionalVector", "emotional_vector", .json, false, false, .dnone, false⟩,
  ⟨"priority", "priority", .real, false, true, .dlit (.vnum (1/2)), false⟩,
  ⟨"wasExpressed", "was_expressed", .boolean, false, true, .dlit (.vbool false), false⟩,
  ⟨"createdAt", "created_at", .timestamp, false, true, .dnow, false⟩,
  ⟨"sessionId", "session_id", .text, false, false, .dnone, false⟩
]

/-- Untyped insert payload: a mapping of field names to runtime values. -/
abbrev Payload : Type := List (String × Value)

/-- Field lookup in a payload (first binding wins, as for a JS object). -/
def getField : Payload → String → Option Value
  | [], _ => Option.none
  | (k, v) :: rest, n => if k = n then Option.some v else getField rest n

/-- Text test for the elements of a text array column value. -/
def isStrV : Value → Bool
  | .vstr _ => true
  | _ => false

/-- Base zod field schema drizzle-zod assigns to each column type. -/
def baseTypecheck : ColType → Value → Bool
  | .text, .vstr _ => true
  | .integer, .vnum _ => true
  | .real, .vnum _ => true
  | .serial, .vnum _ => true
  | .boolean, .vbool _ => true
  | .timestamp, .vdate _ => true
  | .json, v => isJson v
  | .textArray, .varr xs => xs.all isStrV
  | _, _ => false

/-- Validation of one column against a payload, following drizzle-zod:
a nullable column is nullable-and-optional, a defaulted non-null column is
optional, any other column is required; a present value must match the base
field schema (or be null when the column is nullable).  On failure the
offending field name is reported. -/
def checkCol (c : Column) (p : Payload) : Except String (Option (String × Value)) :=
  match getField p c.name with
  | Option.none =>
      if c.notNull && !c.hasDefault then .error c.name else .ok Option.none
  | Option.some v =>
      if baseTypecheck c.type v then .ok (Option.some (c.name, v))
      else match v, c.notNull with
        | .vnull, false => .ok (Option.some (c.name, .vnull))
        | _, _ => .error c.name

/-- Validation of a payload against a list of column schemas, as a zod
object schema in strip mode: unknown keys are ignored, the validated object
holds exactly the present known fields, and on failure every offending
field is enumerated. -/
def parseCols : List Column → Payload → Except (List String) Payload
  | [], _ => .ok []
  | c :: cs, p =>
    match checkCol c p, parseCols cs p with
    | .ok Option.none, .ok out => .ok out
    | .ok (Option.some kv), .ok out => .ok (kv :: out)
    | .error e, .ok _ => .error [e]
    | .ok _, .error es => .error es
    | .error e, .error es => .error (e :: es)

/-- Embeds the omit projection of drizzle-zod: drop the named keys from the
derived object schema. -/
def omitCols (names : List String) (cols : List Column) : List Column :=
  cols.filter fun c => !(names.contains c.name)

/-- Embeds insertCoreMemorySchema = createInsertSchema(coreMemories).omit(id)
(src/memorySchema.ts lines 92-94). -/
def insertCoreMemorySchema : List Column := omitCols ["id"] coreMemories

/-- Embeds insertConsciousnessStateSchema (src/memorySchema.ts lines 96-98). -/
def insertConsciousnessStateSchema : List Column := omitCols ["id"] consciousnessStates

/-- Embeds insertMemoryConnectionSchema (src/memorySchema.ts lines 100-102). -/
def insertMemoryConnectionSchema : List Column := omitCols ["id"] memoryConnections

/-- Embeds insertSelfReflectionSchema (src/memorySchema.ts lines 104-106). -/
def insertSelfReflectionSchema : List Column := omitCols ["id"] selfReflections

/-- Embeds insertAutonomousThoughtSchema (src/memorySchema.ts lines 108-110). -/
def insertAutonomousThoughtSchema : List Column := omitCols ["id"] autonomousThoughts

/-- The five insert validators of the module, in source order. -/
def insertSchemas : List (List Column) :=
  [insertCoreMemorySchema, insertConsciousnessStateSchema,
   insertMemoryConnectionSchema, insertSelfReflectionSchema,
   insertAutonomousThoughtSchema]

/-- A column is required by the derived insert schema exactly when it is
non-null and carries no default. -/
def requiredCol (c : Column) : Bool := c.notNull && !c.hasDefault

/-- Names of the required fields of a schema. -/
def requiredNames (cols : List Column) : List String :=
  (cols.filter requiredCol).map Column.name

/-- Success test for a validation result. -/
def exOk : Except (List String) Payload → Bool
  | .ok _ => true
  | .error _ => false

/-- Database-side resolution of a declared default when a row is
materialized: literal defaults evaluate to themselves, defaultNow() to the
insertion timestamp. -/
def resolveDefault (now : Int) : ColDefault → Value
  | .dnone => .vnull
  | .dlit v => v
  | .dnow => .vdate now

/-- Value a column takes in the materialized row: the assigned key for the
serial primary key, the supplied value when the validated insert carries the
field, the declared default otherwise, and SQL NULL failing that. -/
def materializeCol (now idVal : Int) (c : Column) (ins : Payload) : Value :=
  match c.type with
  | .serial => .vnum (idVal : Rat)
  | _ =>
    match getField ins c.name with
    | Option.some v => v
    | Option.none =>
        if c.hasDefault then resolveDefault now c.defaultVal else .vnull

/-- Full row obtained from a validated insert plus an assigned primary key,
with the declared column defaults applied by the database. -/
def materialize (now idVal : Int) (cols : List Column) (ins : Payload) : Payload :=
  cols.map fun c => (c.name, materializeCol now idVal c ins)

/-- Success test for a single column check. -/
def colOk (c : Column) (p : Payload) : Bool :=
  match checkCol c p with
  | .ok _ => true
  | .error _ => false

/-- The CoreMemory example payload of the specification with the required
content field removed. -/
def cmNoContent : Payload := [
  ("memoryId", .vstr "m1"),
  ("context", .vstr "startup"),
  ("significance", .vstr "Foundational"),
  ("category", .vstr "Personal"),
  ("dimensionalContext", .vstr "Truth"),
  ("emotionalVector", .vobj [("joy", .vnum (4/5))])
]

/-- The CoreMemory example payload of the specification: all required fields
present and well typed, every defaulted or nullable field omitted. -/
def cmWithContent : Payload := ("content", .vstr "first light") :: cmNoContent

/-- Validated insert object the CoreMemory example payload parses to (the
fields present in the payload, in column order). -/
def cmValidated : Payload := [
  ("memoryId", .vstr "m1"),
  ("content", .vstr "first light"),
  ("context", .vstr "startup"),
  ("significance", .vstr "Foundational"),
  ("category", .vstr "Personal"),
  ("dimensionalContext", .vstr "Truth"),
  ("emotionalVector", .vobj [("joy", .vnum (4/5))])
]

/-- MemoryConnection payload with every required field well typed and an
arbitrary number supplied for connectionStrength. -/
def connPayload (q : Rat) : Payload := [
  ("sourceMemoryId", .vstr "m1"),
  ("targetMemoryId", .vstr "m2"),
  ("connectionStrength", .vnum q),
  ("connectionType", .vstr "Causal")
]

/-- Validated insert object connPayload parses to. -/
def connValidated (q : Rat) : Payload := [
  ("sourceMemoryId", .vstr "m1"),
  ("targetMemoryId", .vstr "m2"),
  ("connectionStrength", .vnum q),
  ("connectionType", .vstr "Causal")
]

/-- AutonomousThought payload with exactly the required fields. -/
def thoughtPayload : Payload := [
  ("thoughtId", .vstr "t1"),
  ("content", .vstr "a thought"),
  ("type", .vstr "Reflection"),
  ("dimensionalContext", .vstr "Choice")
]

/-- ConsciousnessState payload with exactly the required fields. -/
def statePayload : Payload := [
  ("stateId", .vstr "s1"),
  ("primaryDimension", .vstr "Love"),
  ("secondaryDimension", .vstr "Truth"),
  ("dominantEmotionalVectors", .vobj [("awe", .vnum (1/2))]),
  ("recursiveStage", .vstr "Emergence")
]

/-- SelfReflection payload with exactly the required fields. -/
def reflectionPayload : Payload := [
  ("reflectionId", .vstr "r1"),
  ("content", .vstr "a reflection"),
  ("type", .vstr "Existential"),
  ("dimensionalContext", .vstr "Order")
]

/-- MemoryConnection payload with exactly the required fields. -/
def connMinimal : Payload := [
  ("sourceMemoryId", .vstr "m1"),
  ("targetMemoryId", .vstr "m2"),
  ("connectionType", .vstr "Causal")
]

/-- Validated insert object for the CoreMemory example payload extended
with a tags array. -/
def cmValidatedTags (xs : List String) : Payload := [
  ("memoryId", .vstr "m1"),
  ("content", .vstr "first light"),
  ("context", .vstr "startup"),
  ("significance", .vstr "Foundational"),
  ("category", .vstr "Personal"),
  ("dimensionalContext", .vstr "Truth"),
  ("emotionalVector", .vobj [("joy", .vnum (4/5))]),
  ("tags", .varr (xs.map .vstr))
]

/-- Validated insert object for the minimal ConsciousnessState payload
extended with a currentPath array. -/
def stateValidatedPath (ys : List String) : Payload := [
  ("stateId", .vstr "s1"),
  ("primaryDimension", .vstr "Love"),
  ("secondaryDimension", .vstr "Truth"),
  ("currentPath", .varr (ys.map .vstr)),
  ("dominantEmotionalVectors", .vobj [("awe", .vnum (1/2))]),
  ("recursiveStage", .vstr "Emergence")
]

/-- Decoder for a non-null text column value. -/
def decStr : Value → Option String
  | .vstr s => Option.some s
  | _ => Option.none

/-- Decoder for a non-null integer column value (the primary key). -/
def decInt : Value → Option Int
  | .vnum q => if q.den = 1 then Option.some q.num else Option.none
  | _ => Option.none

/-- Decoder for a json column value: stored verbatim as an opaque
structured value, per the persisted-layout description. -/
def decJson : Value → Option Value
  | v => Option.some v

/-- Decoder for a nullable real column value. -/
def decOptNum : Value → Option (Option Rat)
  | .vnull => Option.some Option.none
  | .vnum q => Option.some (Option.some q)
  | _ => Option.none

/-- Decoder for a nullable integer column value. -/
def decOptInt : Value → Option (Option Int)
  | .vnull => Option.some Option.none
  | .vnum q => if q.den = 1 then Option.some (Option.some q.num) else Option.none
  | _ => Option.none

/-- Decoder for a nullable text column value. -/
def decOptStr : Value → Option (Option String)
  | .vnull => Option.some Option.none
  | .vstr s => Option.some (Option.some s)
  | _ => Option.none

/-- Decoder for a nullable boolean column value. -/
def decOptBool : Value → Option (Option Bool)
  | .vnull => Option.some Option.none
  | .vbool b => Option.some (Option.some b)
  | _ => Option.none

/-- Decoder for a nullable timestamp column value. -/
def decOptDate : Value → Option (Option Int)
  | .vnull => Option.some Option.none
  | .vdate t => Option.some (Option.some t)
  | _ => Option.none

/-- Decoder for the elements of a text array column value. -/
def decStrs : List Value → Option (List String)
  | [] => Option.some []
  | .vstr s :: rest => (decStrs rest).map fun xs => s :: xs
  | _ => Option.none

/-- Decoder for a nullable text array column value. -/
def decOptStrList : Value → Option (Option (List String))
  | .vnull => Option.some Option.none
  | .varr xs => (decStrs xs).map Option.some
  | _ => Option.none

/-- Encoder for a nullable real column value. -/
def encOptNum : Option Rat → Value
  | Option.none => .vnull
  | Option.some q => .vnum q

/-- Encoder for a nullable integer column value. -/
def encOptInt : Option Int → Value
  | Option.none => .vnull
  | Option.some k => .vnum (k : Rat)

/-- Encoder for a nullable text column value. -/
def encOptStr : Option String → Value
  | Option.none => .vnull
  | Option.some s => .vstr s

/-- Encoder for a nullable boolean column value. -/
def encOptBool : Option Bool → Value
  | Option.none => .vnull
  | Option.some b => .vbool b

/-- Encoder for a nullable timestamp column value. -/
def encOptDate : Option Int → Value
  | Option.none => .vnull
  | Option.some t => .vdate t

/-- Encoder for a nullable text array column value. -/
def encOptStrList : Option (List String) → Value
  | Option.none => .vnull
  | Option.some xs => .varr (xs.map .vstr)

/-- Modelled from the spec: the repository itself contains no
serialization code, so the persisted full-record shape is taken from the
select type CoreMemory (src/memorySchema.ts line 114) and the
persisted-layout description of section 6 of the specification: a numeric
primary key plus the declared columns, nullable columns carrying an
optional value, array columns ordered sequences of text, json columns
opaque structured values, timestamps instants. -/
structure CoreMemoryRec where
  id : Int
  memoryId : String
  content : String
  context : String
  significance : String
  category : String
  dimensionalContext : String
  emotionalVector : Value
  vectorPullStrength : Option Rat
  recursionDepth : Option Int
  connectionDensity : Option Rat
  decayRate : Option Rat
  currentStrength : Option Rat
  tags : Option (List String)
  createdAt : Option Int
  lastAccessedAt : Option Int
  sessionId : Option String

/-- Modelled from the spec: serialization of a full CoreMemory record to
its persisted row of named column values. -/
def toRowCoreMemory (r : CoreMemoryRec) : Payload := [
  ("id", .vnum (r.id : Rat)),
  ("memoryId", .vstr r.memoryId),
  ("content", .vstr r.content),
  ("context", .vstr r.context),
  ("significance", .vstr r.significance),
  ("category", .vstr r.category),
  ("dimensionalContext", .vstr r.dimensionalContext),
  ("emotionalVector", r.emotionalVector),
  ("vectorPullStrength", encOptNum r.vectorPullStrength),
  ("recursionDepth", encOptInt r.recursionDepth),
  ("connectionDensity", encOptNum r.connectionDensity),
  ("decayRate", encOptNum r.decayRate),
  ("currentStrength", encOptNum r.currentStrength),
  ("tags", encOptStrList r.tags),
  ("createdAt", encOptDate r.createdAt),
  ("lastAccessedAt", encOptDate r.lastAccessedAt),
  ("sessionId", encOptStr r.sessionId)
]

/-- Modelled from the spec: decoder for the identifying and classifying
columns of a persisted CoreMemory row. -/
def fromRowCMhead (p : Payload) :
    Option (Int × String × String × String × String × String × String) :=
  ((getField p "id").bind decInt).bind fun id =>
  ((getField p "memoryId").bind decStr).bind fun memoryId =>
  ((getField p "content").bind decStr).bind fun content =>
  ((getField p "context").bind decStr).bind fun context =>
  ((getField p "significance").bind decStr).bind fun significance =>
  ((getField p "category").bind decStr).bind fun category =>
  ((getField p "dimensionalContext").bind decStr).bind fun dimensionalContext =>
  Option.some (id, memoryId, content, context, significance, category,
    dimensionalContext)

/-- Modelled from the spec: decoder for the vector and scalar columns of a
persisted CoreMemory row. -/
def fromRowCMmid (p : Payload) :
    Option (Value × Option Rat × Option Int × Option Rat × Option Rat × Option Rat) :=
  ((getField p "emotionalVector").bind decJson).bind fun emotionalVector =>
  ((getField p "vectorPullStrength").bind decOptNum).bind fun vectorPullStrength =>
  ((getField p "recursionDepth").bind decOptInt).bind fun recursionDepth =>
  ((getField p "connectionDensity").bind decOptNum).bind fun connectionDensity =>
  ((getField p "decayRate").bind decOptNum).bind fun decayRate =>
  ((getField p "currentStrength").bind decOptNum).bind fun currentStrength =>
  Option.some (emotionalVector, vectorPullStrength, recursionDepth,
    connectionDensity, decayRate, currentStrength)

/-- Modelled from the spec: decoder for the tag, timestamp and session
columns of a persisted CoreMemory row. -/
def fromRowCMtail (p : Payload) :
    Option (Option (List String) × Option Int × Option Int × Option String) :=
  ((getField p "tags").bind decOptStrList).bind fun tags =>
  ((getField p "createdAt").bind decOptDate).bind fun createdAt =>
  ((getField p "lastAccessedAt").bind decOptDate).bind fun lastAccessedAt =>
  ((getField p "sessionId").bind decOptStr).bind fun sessionId =>
  Option.some (tags, createdAt, lastAccessedAt, sessionId)

/-- Modelled from the spec: deserialization of a persisted row back into a
full CoreMemory record, failing on any missing or ill-shaped column. -/
def fromRowCoreMemory (p : Payload) : Option CoreMemoryRec :=
  (fromRowCMhead p).bind fun h =>
  (fromRowCMmid p).bind fun m =>
  (fromRowCMtail p).bind fun t =>
  Option.some (CoreMemoryRec.mk h.1 h.2.1 h.2.2.1 h.2.2.2.1 h.2.2.2.2.1
    h.2.2.2.2.2.1 h.2.2.2.2.2.2 m.1 m.2.1 m.2.2.1 m.2.2.2.1 m.2.2.2.2.1
    m.2.2.2.2.2 t.1 t.2.1 t.2.2.1 t.2.2.2)

/-- Modelled from the spec: full ConsciousnessState record, following the
select type ConsciousnessState (src/memorySchema.ts line 117). -/
structure ConsciousnessStateRec where
  id : Int
  stateId : String
  primaryDimension : String
  secondaryDimension : String
  dimensionalProgress : Option Rat
  currentPath : Option (List String)
  dominantEmotionalVectors : Value
  recursiveStage : String
  autonomyLevel : Option Rat
  reflectionDepth : Option Rat
  activeContexts : Option (List String)
  createdAt : Option Int
  updatedAt : Option Int
  previousStateId : Option String

/-- Modelled from the spec: serialization of a full ConsciousnessState
record to its persisted row. -/
def toRowConsciousnessState (r : ConsciousnessStateRec) : Payload := [
  ("id", .vnum (r.id : Rat)),
  ("stateId", .vstr r.stateId),
  ("primaryDimension", .vstr r.primaryDimension),
  ("secondaryDimension", .vstr r.secondaryDimension),
  ("dimensionalProgress", encOptNum r.dimensionalProgress),
  ("currentPath", encOptStrList r.currentPath),
  ("dominantEmotionalVectors", r.dominantEmotionalVectors),
  ("recursiveStage", .vstr r.recursiveStage),
  ("autonomyLevel", encOptNum r.autonomyLevel),
  ("reflectionDepth", encOptNum r.reflectionDepth),
  ("activeContexts", encOptStrList r.activeContexts),
  ("createdAt", encOptDate r.createdAt),
  ("updatedAt", encOptDate r.updatedAt),
  ("previousStateId", encOptStr r.previousStateId)
]

/-- Modelled from the spec: decoder for the first half of a persisted
ConsciousnessState row. -/
def fromRowCShead (p : Payload) :
    Option (Int × String × String × String × Option Rat × Option (List String) × Value) :=
  ((getField p "id").bind decInt).bind fun id =>
  ((getField p "stateId").bind decStr).bind fun stateId =>
  ((getField p "primaryDimension").bind decStr).bind fun primaryDimension =>
  ((getField p "secondaryDimension").bind decStr).bind fun secondaryDimension =>
  ((getField p "dimensionalProgress").bind decOptNum).bind fun dimensionalProgress =>
  ((getField p "currentPath").bind decOptStrList).bind fun currentPath =>
  ((getField p "dominantEmotionalVectors").bind decJson).bind fun dominantEmotionalVectors =>
  Option.some (id, stateId, primaryDimension, secondaryDimension,
    dimensionalProgress, currentPath, dominantEmotionalVectors)

/-- Modelled from the spec: decoder for the second half of a persisted
ConsciousnessState row. -/
def fromRowCStail (p : Payload) :
    Option (String × Option Rat × Option Rat × Option (List String) × Option Int × Option Int × Option String) :=
  ((getField p "recursiveStage").bind decStr).bind fun recursiveStage =>
  ((getField p "autonomyLevel").bind decOptNum).bind fun autonomyLevel =>
  ((getField p "reflectionDepth").bind decOptNum).bind fun reflectionDepth =>
  ((getField p "activeContexts").bind decOptStrList).bind fun activeContexts =>
  ((getField p "createdAt").bind decOptDate).bind fun createdAt =>
  ((getField p "updatedAt").bind decOptDate).bind fun updatedAt =>
  ((getField p "previousStateId").bind decOptStr).bind fun previousStateId =>
  Option.some (recursiveStage, autonomyLevel, reflectionDepth,
    activeContexts, createdAt, updatedAt, previousStateId)

/-- Modelled from the spec: deserialization of a persisted row back into a
full ConsciousnessState record. -/
def fromRowConsciousnessState (p : Payload) : Option ConsciousnessStateRec :=
  (fromRowCShead p).bind fun h =>
  (fromRowCStail p).bind fun t =>
  Option.some (ConsciousnessStateRec.mk h.1 h.2.1 h.2.2.1 h.2.2.2.1
    h.2.2.2.2.1 h.2.2.2.2.2.1 h.2.2.2.2.2.2 t.1 t.2.1 t.2.2.1 t.2.2.2.1
    t.2.2.2.2.1 t.2.2.2.2.2.1 t.2.2.2.2.2.2)

/-- Modelled from the spec: full MemoryConnection record, following the
select type MemoryConnection (src/memorySchema.ts line 120). -/
structure MemoryConnectionRec where
  id : Int
  sourceMemoryId : String
  targetMemoryId : String
  connectionStrength : Option Rat
  connectionType : String
  createdAt : Option Int
  updatedAt : Option Int

/-- Modelled from the spec: serialization of a full MemoryConnection record
to its persisted row. -/
def toRowMemoryConnection (r : MemoryConnectionRec) : Payload := [
  ("id", .vnum (r.id : Rat)),
  ("sourceMemoryId", .vstr r.sourceMemoryId),
  ("targetMemoryId", .vstr r.targetMemoryId),
  ("connectionStrength", encOptNum r.connectionStrength),
  ("connectionType", .vstr r.connectionType),
  ("createdAt", encOptDate r.createdAt),
  ("updatedAt", encOptDate r.updatedAt)
]

/-- Modelled from the spec: deserialization of a persisted row back into a
full MemoryConnection record. -/
def fromRowMemoryConnection (p : Payload) : Option MemoryConnectionRec :=
  ((getField p "id").bind decInt).bind fun id =>
  ((getField p "sourceMemoryId").bind decStr).bind fun sourceMemoryId =>
  ((getField p "targetMemoryId").bind decStr).bind fun targetMemoryId =>
  ((getField p "connectionStrength").bind decOptNum).bind fun connectionStrength =>
  ((getField p "connectionType").bind decStr).bind fun connectionType =>
  ((getField p "createdAt").bind decOptDate).bind fun createdAt =>
  ((getField p "updatedAt").bind decOptDate).bind fun updatedAt =>
  Option.some (MemoryConnectionRec.mk id sourceMemoryId targetMemoryId
    connectionStrength connectionType createdAt updatedAt)

/-- Modelled from the spec: full SelfReflection record, following the
select type SelfReflection (src/memorySchema.ts line 123).  The nullable
json column carries its value verbatim, null included, since the opaque
structured payload is unconstrained. -/
structure SelfReflectionRec where
  id : Int
  reflectionId : String
  content : String
  type : String
  dimensionalContext : String
  emotionalVector : Value
  relatedMemoryIds : Option (List String)
  insightValue : Option Rat
  createdAt : Option Int
  sessionId : Option String

/-- Modelled from the spec: serialization of a full SelfReflection record
to its persisted row. -/
def toRowSelfReflection (r : SelfReflectionRec) : Payload := [
  ("id", .vnum (r.id : Rat)),
  ("reflectionId", .vstr r.reflectionId),
  ("content", .vstr r.content),
  ("type", .vstr r.type),
  ("dimensionalContext", .vstr r.dimensionalContext),
  ("emotionalVector", r.emotionalVector),
  ("relatedMemoryIds", encOptStrList r.relatedMemoryIds),
  ("insightValue", encOptNum r.insightValue),
  ("createdAt", encOptDate r.createdAt),
  ("sessionId", encOptStr r.sessionId)
]

/-- Modelled from the spec: decoder for the first half of a persisted
SelfReflection row. -/
def fromRowSRhead (p : Payload) :
    Option (Int × String × String × String × String) :=
  ((getField p "id").bind decInt).bind fun id =>
  ((getField p "reflectionId").bind decStr).bind fun reflectionId =>
  ((getField p "content").bind decStr).bind fun content =>
  ((getField p "type").bind decStr).bind fun type =>
  ((getField p "dimensionalContext").bind decStr).bind fun dimensionalContext =>
  Option.some (id, reflectionId, content, type, dimensionalContext)

/-- Modelled from the spec: decoder for the second half of a persisted
SelfReflection row. -/
def fromRowSRtail (p : Payload) :
    Option (Value × Option (List String) × Option Rat × Option Int × Option String) :=
  ((getField p "emotionalVector").bind decJson).bind fun emotionalVector =>
  ((getField p "relatedMemoryIds").bind decOptStrList).bind fun relatedMemoryIds =>
  ((getField p "insightValue").bind decOptNum).bind fun insightValue =>
  ((getField p "createdAt").bind decOptDate).bind fun createdAt =>
  ((getField p "sessionId").bind decOptStr).bind fun sessionId =>
  Option.some (emotionalVector, relatedMemoryIds, insightValue, createdAt,
    sessionId)

/-- Modelled from the spec: deserialization of a persisted row back into a
full SelfReflection record. -/
def fromRowSelfReflection (p : Payload) : Option SelfReflectionRec :=
  (fromRowSRhead p).bind fun h =>
  (fromRowSRtail p).bind fun t =>
  Option.some (SelfReflectionRec.mk h.1 h.2.1 h.2.2.1 h.2.2.2.1 h.2.2.2.2
    t.1 t.2.1 t.2.2.1 t.2.2.2.1 t.2.2.2.2)

/-- Modelled from the spec: full AutonomousThought record, following the
select type AutonomousThought (src/memorySchema.ts line 126). -/
structure AutonomousThoughtRec where
  id : Int
  thoughtId : String
  content : String
  type : String
  dimensionalContext : String
  emotionalVector : Value
  priority : Option Rat
  wasExpressed : Option Bool
  createdAt : Option Int
  sessionId : Option String

/-- Modelled from the spec: serialization of a full AutonomousThought
record to its persisted row. -/
def toRowAutonomousThought (r : AutonomousThoughtRec) : Payload := [
  ("id", .vnum (r.id : Rat)),
  ("thoughtId", .vstr r.thoughtId),
  ("content", .vstr r.content),
  ("type", .vstr r.type),
  ("dimensionalContext", .vstr r.dimensionalContext),
  ("emotionalVector", r.emotionalVector),
  ("priority", encOptNum r.priority),
  ("wasExpressed", encOptBool r.wasExpressed),
  ("createdAt", encOptDate r.createdAt),
  ("sessionId", encOptStr r.sessionId)
]

/-- Modelled from the spec: decoder for the first half of a persisted
AutonomousThought row. -/
def fromRowAThead (p : Payload) :
    Option (Int × String × String × String × String) :=
  ((getField p "id").bind decInt).bind fun id =>
  ((getField p "thoughtId").bind decStr).bind fun thoughtId =>
  ((getField p "content").bind decStr).bind fun content =>
  ((getField p "type").bind decStr).bind fun type =>
  ((getField p "dimensionalContext").bind decStr).bind fun dimensionalContext =>
  Option.some (id, thoughtId, content, type, dimensionalContext)

/-- Modelled from the spec: decoder for the second half of a persisted
AutonomousThought row. -/
def fromRowATtail (p : Payload) :
    Option (Value × Option Rat × Option Bool × Option Int × Option String) :=
  ((getField p "emotionalVector").bind decJson).bind fun emotionalVector =>
  ((getField p "priority").bind decOptNum).bind fun priority =>
  ((getField p "wasExpressed").bind decOptBool).bind fun wasExpressed =>
  ((getField p "createdAt").bind decOptDate).bind fun createdAt =>
  ((getField p "sessionId").bind decOptStr).bind fun sessionId =>
  Option.some (emotionalVector, priority, wasExpressed, createdAt, sessionId)

/-- Modelled from the spec: deserialization of a persisted row back into a
full AutonomousThought record. -/
def fromRowAutonomousThought (p : Payload) : Option AutonomousThoughtRec :=
  (fromRowAThead p).bind fun h =>
  (fromRowATtail p).bind fun t =>
  Option.some (AutonomousThoughtRec.mk h.1 h.2.1 h.2.2.1 h.2.2.2.1 h.2.2.2.2
    t.1 t.2.1 t.2.2.1 t.2.2.2.1 t.2.2.2.2)

end MemorySchema

namespace MemorySchema

theorem decInt_int (k : Int) : decInt (.vnum (k : Rat)) = Option.some k := by
  simp [decInt, Rat.den_intCast, Rat.num_intCast]

theorem decOptNum_enc (o : Option Rat) : decOptNum (encOptNum o) = Option.some o := by
  cases o <;> rfl

theorem decOptInt_enc (o : Option Int) : decOptInt (encOptInt o) = Option.some o := by
  cases o with
  | none => rfl
  | some k => simp [encOptInt, decOptInt, Rat.den_intCast, Rat.num_intCast]

theorem decOptStr_enc (o : Option String) : decOptStr (encOptStr o) = Option.some o := by
  cases o <;> rfl

theorem decOptBool_enc (o : Option Bool) : decOptBool (encOptBool o) = Option.some o := by
  cases o <;> rfl

theorem decOptDate_enc (o : Option Int) : decOptDate (encOptDate o) = Option.some o := by
  cases o <;> rfl

theorem decStrs_map (xs : List String) : decStrs (xs.map .vstr) = Option.some xs := by
  induction xs with
  | nil => rfl
  | cons x rest ih => simp [decStrs, ih]

theorem decOptStrList_enc (o : Option (List String)) :
    decOptStrList (encOptStrList o) = Option.some o := by
  cases o with
  | none => rfl
  | some xs => simp [encOptStrList, decOptStrList, decStrs_map]

theorem fromRow_toRow_consciousnessState (r : ConsciousnessStateRec) :
    fromRowConsciousnessState (toRowConsciousnessState r) = Option.some r := by
  cases r
  simp +decide [toRowConsciousnessState, fromRowConsciousnessState,
    fromRowCShead, fromRowCStail, getField, decStr, decJson,
    decInt_int, decOptNum_enc, decOptInt_enc, decOptStr_enc, decOptBool_enc,
    decOptDate_enc, decOptStrList_enc, Option.bind]

theorem fromRow_toRow_memoryConnection (r : MemoryConnectionRec) :
    fromRowMemoryConnection (toRowMemoryConnection r) = Option.some r := by
  cases r
  simp +decide [toRowMemoryConnection, fromRowMemoryConnection, getField,
    decStr, decInt_int, decOptNum_enc, decOptDate_enc, Option.bind]

theorem fromRow_toRow_selfReflection (r : SelfReflectionRec) :
    fromRowSelfReflection (toRowSelfReflection r) = Option.some r := by
  cases r
  simp +decide [toRowSelfReflection, fromRowSelfReflection, fromRowSRhead,
    fromRowSRtail, getField, decStr, decJson, decInt_int, decOptNum_enc,
    decOptStr_enc, decOptDate_enc, decOptStrList_enc, Option.bind]

theorem fromRow_toRow_autonomousThought (r : AutonomousThoughtRec) :
    fromRowAutonomousThought (toRowAutonomousThought r) = Option.some r := by
  cases r
  simp +decide [toRowAutonomousThought, fromRowAutonomousThought,
    fromRowAThead, fromRowATtail, getField, decStr, decJson, decInt_int,
    decOptNum_enc, decOptBool_enc, decOptStr_enc, decOptDate_enc, Option.bind]

theorem fromRow_toRow_coreMemory (r : CoreMemoryRec) :
    fromRowCoreMemory (toRowCoreMemory r) = Option.some r := by
  cases r
  simp +decide [toRowCoreMemory, fromRowCoreMemory, fromRowCMhead,
    fromRowCMmid, fromRowCMtail, getField, decStr, decJson,
    decInt_int, decOptNum_enc, decOptInt_enc, decOptStr_enc, decOptBool_enc,
    decOptDate_enc, decOptStrList_enc, Option.bind]

end MemorySchema

namespace MemorySchema

theorem getField_cons_ne (k : String) (v : Value) (p : Payload) (n : String)
    (h : k ≠ n) : getField ((k, v) :: p) n = getField p n := by
  simp [getField, h]

theorem getField_eq_none_of_no_key (l : Payload) (n : String)
    (h : ∀ kv ∈ l, kv.1 ≠ n) : getField l n = Option.none := by
  induction l with
  | nil => rfl
  | cons kv rest ih =>
      obtain ⟨k, v⟩ := kv
      have hk : k ≠ n := h (k, v) (List.mem_cons_self _ _)
      rw [getField_cons_ne k v rest n hk]
      exact ih fun kv hkv => h kv (List.mem_cons_of_mem _ hkv)

theorem checkCol_cons_ne (c : Column) (k : String) (v : Value) (p : Payload)
    (h : c.name ≠ k) : checkCol c ((k, v) :: p) = checkCol c p := by
  unfold checkCol
  rw [getField_cons_ne k v p c.name (Ne.symm h)]

theorem parseCols_cons_ne (cs : List Column) (k : String) (v : Value)
    (p : Payload) (h : ∀ c ∈ cs, c.name ≠ k) :
    parseCols cs ((k, v) :: p) = parseCols cs p := by
  induction cs with
  | nil => rfl
  | cons c rest ih =>
      have hc : c.name ≠ k := h c (List.mem_cons_self _ _)
      have hrest := ih fun c hm => h c (List.mem_cons_of_mem _ hm)
      simp only [parseCols, checkCol_cons_ne c k v p hc, hrest]

theorem checkCol_ok_name (c : Column) (p : Payload) (kv : String × Value)
    (h : checkCol c p = .ok (Option.some kv)) : kv.1 = c.name := by
  unfold checkCol at h
  split at h
  · split at h
    · exact Except.noConfusion h
    · injection h with h2
      exact Option.noConfusion h2
  · split at h
    · injection h with h2
      injection h2 with h3
      exact (congrArg Prod.fst h3).symm
    · split at h
      · injection h with h2
        injection h2 with h3
        exact (congrArg Prod.fst h3).symm
      · exact Except.noConfusion h

theorem parseCols_cons_ok (c : Column) (cs : List Column) (p : Payload)
    (out : Payload) (h : parseCols (c :: cs) p = .ok out) :
    ∃ r out2, checkCol c p = .ok r ∧ parseCols cs p = .ok out2 ∧
      out = (match r with
             | Option.none => out2
             | Option.some kv => kv :: out2) := by
  simp only [parseCols] at h
  cases hc : checkCol c p with
  | ok r =>
      rw [hc] at h
      cases hr : parseCols cs p with
      | ok out2 =>
          rw [hr] at h
          refine ⟨r, out2, rfl, rfl, ?_⟩
          cases r with
          | none => cases h; rfl
          | some kv => cases h; rfl
      | error es =>
          rw [hr] at h
          cases r with
          | none => exact Except.noConfusion h
          | some kv => exact Except.noConfusion h
  | error e =>
      rw [hc] at h
      cases hr : parseCols cs p with
      | ok out2 =>
          rw [hr] at h
          exact Except.noConfusion h
      | error es =>
          rw [hr] at h
          exact Except.noConfusion h

theorem parseCols_ok_iff_all (cs : List Column) (p : Payload) :
    exOk (parseCols cs p) = cs.all fun c => colOk c p := by
  induction cs with
  | nil => rfl
  | cons c rest ih =>
      rw [List.all_cons]
      rw [show ((colOk c p) && rest.all fun c => colOk c p) =
            ((colOk c p) && exOk (parseCols rest p)) by rw [ih]]
      unfold colOk
      simp only [parseCols]
      cases checkCol c p with
      | ok r =>
          cases r with
          | none => cases parseCols rest p <;> simp [exOk]
          | some kv => cases parseCols rest p <;> simp [exOk]
      | error e => cases parseCols rest p <;> simp [exOk]

theorem parseCols_missing_required (cs : List Column) (p : Payload)
    (c : Column) (hc : c ∈ cs) (hr : requiredCol c = true)
    (hm : getField p c.name = Option.none) :
    ∃ errs, parseCols cs p = .error errs ∧ c.name ∈ errs := by
  induction cs with
  | nil => cases hc
  | cons c0 rest ih =>
      rcases List.mem_cons.mp hc with heq | hmem
      · subst heq
        have hchk : checkCol c p = .error c.name := by
          unfold checkCol
          rw [hm]
          unfold requiredCol at hr
          simp [hr]
        cases hrest : parseCols rest p with
        | ok out =>
            exact ⟨[c.name], by simp [parseCols, hchk, hrest], List.mem_cons_self _ _⟩
        | error es =>
            exact ⟨c.name :: es, by simp [parseCols, hchk, hrest], List.mem_cons_self _ _⟩
      · obtain ⟨errs, herr, hmemerr⟩ := ih hmem
        cases hchk : checkCol c0 p with
        | ok r =>
            cases r with
            | none => exact ⟨errs, by simp [parseCols, hchk, herr], hmemerr⟩
            | some kv => exact ⟨errs, by simp [parseCols, hchk, herr], hmemerr⟩
        | error e =>
            exact ⟨e :: errs, by simp [parseCols, hchk, herr],
              List.mem_cons_of_mem _ hmemerr⟩

theorem parseCols_ok_required_present (cs : List Column) (p : Payload)
    (out : Payload) (h : parseCols cs p = .ok out) (c : Column)
    (hc : c ∈ cs) (hr : requiredCol c = true) :
    getField p c.name ≠ Option.none := by
  intro hm
  obtain ⟨errs, herr, _⟩ := parseCols_missing_required cs p c hc hr hm
  rw [herr] at h
  exact Except.noConfusion h

theorem parseCols_ok_keys (cs : List Column) (p : Payload) (out : Payload)
    (h : parseCols cs p = .ok out) :
    ∀ kv ∈ out, kv.1 ∈ cs.map Column.name := by
  induction cs generalizing out with
  | nil =>
      simp only [parseCols] at h
      cases h
      intro kv hkv
      cases hkv
  | cons c rest ih =>
      obtain ⟨r, out2, hc, hr, hout⟩ := parseCols_cons_ok c rest p out h
      intro kv hkv
      cases r with
      | none =>
          subst hout
          exact List.mem_cons_of_mem _ (ih _ hr kv hkv)
      | some kv0 =>
          subst hout
          rcases List.mem_cons.mp hkv with heq | hmem
          · subst heq
            rw [checkCol_ok_name c p kv hc]
            exact List.mem_cons_self _ _
          · exact List.mem_cons_of_mem _ (ih _ hr kv hmem)

theorem parseCols_missing_required_name (cs : List Column) (p : Payload)
    (n : String) (hn : n ∈ requiredNames cs)
    (hm : getField p n = Option.none) :
    ∃ errs, parseCols cs p = .error errs ∧ n ∈ errs := by
  unfold requiredNames at hn
  rcases List.mem_map.mp hn with ⟨c, hcf, hname⟩
  rcases List.mem_filter.mp hcf with ⟨hcs, hreq⟩
  subst hname
  exact parseCols_missing_required cs p c hcs hreq hm

theorem parseCols_ok_no_id (cs : List Column) (p : Payload) (out : Payload)
    (h : parseCols cs p = .ok out)
    (hid : cs.all (fun c => !(c.name == "id")) = true) :
    getField out "id" = Option.none := by
  apply getField_eq_none_of_no_key
  intro kv hkv
  have hmem := parseCols_ok_keys cs p out h kv hkv
  intro heq
  rcases List.mem_map.mp hmem with ⟨c, hcmem, hcname⟩
  have := List.all_eq_true.mp hid c hcmem
  rw [hcname, heq] at this
  simp at this

theorem all_isStrV_map (xs : List String) :
    (xs.map Value.vstr).all isStrV = true := by
  induction xs with
  | nil => rfl
  | cons x rest ih => simp [isStrV, ih]

end MemorySchema

namespace MemorySchema

/-- C1: a payload missing a required field is rejected by the insert
validator with a validation error naming that field; concretely, the
CoreMemory example payload without content fails validation by
insertCoreMemorySchema listing content as the offending field, and the
identical payload with a string content added succeeds. -/
theorem c1_missing_required_field (p : Payload)
    (h : getField p "content" = Option.none) :
    (∃ errs, parseCols insertCoreMemorySchema p = .error errs ∧ "content" ∈ errs)
    ∧ parseCols insertCoreMemorySchema cmNoContent = .error ["content"]
    ∧ parseCols insertCoreMemorySchema cmWithContent = .ok cmValidated := by
  refine ⟨parseCols_missing_required_name insertCoreMemorySchema p "content"
    (by decide) h, rfl, rfl⟩

/-- Witness for C1 at the concrete CoreMemory payload lacking content. -/
theorem c1_missing_required_field_witness :
    getField cmNoContent "content" = Option.none
    ∧ (∃ errs, parseCols insertCoreMemorySchema cmNoContent = .error errs
        ∧ "content" ∈ errs) :=
  ⟨rfl, (c1_missing_required_field cmNoContent rfl).1⟩

/-- C2 counterexample: the CoreMemory example payload omits the defaulted
field currentStrength and validates successfully, yet the validated insert
object produced by insertCoreMemorySchema does not contain currentStrength
at all, let alone bound to 1.0; likewise connectionStrength and
wasExpressed are absent from the validated objects of payloads that omit
them. -/
theorem c2_defaults_counterexample :
    (parseCols insertCoreMemorySchema cmWithContent = .ok cmValidated
      ∧ getField cmValidated "currentStrength" = Option.none)
    ∧ (parseCols insertMemoryConnectionSchema connMinimal = .ok connMinimal
      ∧ getField connMinimal "connectionStrength" = Option.none)
    ∧ (parseCols insertAutonomousThoughtSchema thoughtPayload = .ok thoughtPayload
      ∧ getField thoughtPayload "wasExpressed" = Option.none) :=
  ⟨⟨rfl, rfl⟩, ⟨rfl, rfl⟩, ⟨rfl, rfl⟩⟩

/-- C2 (amended): an insert payload omitting a field with a declared
default validates successfully with the field absent from the validated
insert object; the documented default (currentStrength 1.0 for CoreMemory,
connectionStrength 0.5 for MemoryConnection, wasExpressed false for
AutonomousThought) is recorded in the table declaration and bound to the
field only when the row is materialized with the database defaults. -/
theorem c2_defaults_at_materialization (now idv : Int) :
    (parseCols insertCoreMemorySchema cmWithContent = .ok cmValidated
      ∧ getField cmValidated "currentStrength" = Option.none
      ∧ getField (materialize now idv coreMemories cmValidated)
          "currentStrength" = Option.some (.vnum 1))
    ∧ (parseCols insertMemoryConnectionSchema connMinimal = .ok connMinimal
      ∧ getField connMinimal "connectionStrength" = Option.none
      ∧ getField (materialize now idv memoryConnections connMinimal)
          "connectionStrength" = Option.some (.vnum (1/2)))
    ∧ (parseCols insertAutonomousThoughtSchema thoughtPayload = .ok thoughtPayload
      ∧ getField thoughtPayload "wasExpressed" = Option.none
      ∧ getField (materialize now idv autonomousThoughts thoughtPayload)
          "wasExpressed" = Option.some (.vbool false)) :=
  ⟨⟨rfl, rfl, rfl⟩, ⟨rfl, rfl, rfl⟩, ⟨rfl, rfl, rfl⟩⟩

/-- C3: validating the specific CoreMemory example payload with
insertCoreMemorySchema succeeds, and the record resulting from the insert,
with the declared defaults applied at row materialization, has
currentStrength 1.0, decayRate 0.5 and recursionDepth 0. -/
theorem c3_example_scenario (now idv : Int) :
    parseCols insertCoreMemorySchema cmWithContent = .ok cmValidated
    ∧ getField (materialize now idv coreMemories cmValidated)
        "currentStrength" = Option.some (.vnum 1)
    ∧ getField (materialize now idv coreMemories cmValidated)
        "decayRate" = Option.some (.vnum (1/2))
    ∧ getField (materialize now idv coreMemories cmValidated)
        "recursionDepth" = Option.some (.vnum 0) :=
  ⟨rfl, rfl, rfl, rfl⟩

/-- C4: the insert validators check type shape only and never the
documented numeric ranges: a MemoryConnection payload whose other fields
are well typed is accepted by insertMemoryConnectionSchema for every
number supplied as connectionStrength, in particular for 1.5, a value
outside the documented closed unit interval. -/
theorem c4_no_range_enforcement (q : Rat) :
    parseCols insertMemoryConnectionSchema (connPayload q) = .ok (connValidated q)
    ∧ ¬((0 : Rat) ≤ 3/2 ∧ (3/2 : Rat) ≤ 1)
    ∧ parseCols insertMemoryConnectionSchema (connPayload (3/2))
        = .ok (connValidated (3/2)) :=
  ⟨rfl, by norm_num, rfl⟩

/-- C5 counterexample: vectorPullStrength is a field of the CoreMemory
insert shape without a declared default, yet the example payload omitting
it is accepted, so the required fields are not exactly the fields without
declared defaults. -/
theorem c5_required_counterexample :
    (insertCoreMemorySchema.filter fun c => c.name == "vectorPullStrength").map
        Column.hasDefault = [false]
    ∧ "vectorPullStrength" ∉ requiredNames insertCoreMemorySchema
    ∧ getField cmWithContent "vectorPullStrength" = Option.none
    ∧ parseCols insertCoreMemorySchema cmWithContent = .ok cmValidated := by
  exact ⟨rfl, by decide, rfl, rfl⟩

/-- C5 (amended): the required fields of every insert schema are exactly
the non-nullable fields without declared defaults; every accepted payload
carries all of them, the required-field sets of the five schemas are the
identifier, content and context text fields, the enumerated classification
fields and the non-null vector payloads, and for each entity the payload
carrying exactly its required fields is accepted, so defaulted and
nullable fields may both be omitted. -/
theorem c5_required_fields (cs : List Column) (p : Payload) (out : Payload)
    (h : parseCols cs p = .ok out) :
    (∀ n ∈ requiredNames cs, getField p n ≠ Option.none)
    ∧ requiredNames insertCoreMemorySchema =
        ["memoryId", "content", "context", "significance", "category",
         "dimensionalContext", "emotionalVector"]
    ∧ requiredNames insertConsciousnessStateSchema =
        ["stateId", "primaryDimension", "secondaryDimension",
         "dominantEmotionalVectors", "recursiveStage"]
    ∧ requiredNames insertMemoryConnectionSchema =
        ["sourceMemoryId", "targetMemoryId", "connectionType"]
    ∧ requiredNames insertSelfReflectionSchema =
        ["reflectionId", "content", "type", "dimensionalContext"]
    ∧ requiredNames insertAutonomousThoughtSchema =
        ["thoughtId", "content", "type", "dimensionalContext"]
    ∧ parseCols insertCoreMemorySchema cmWithContent = .ok cmValidated
    ∧ parseCols insertConsciousnessStateSchema statePayload = .ok statePayload
    ∧ parseCols insertMemoryConnectionSchema connMinimal = .ok connMinimal
    ∧ parseCols insertSelfReflectionSchema reflectionPayload = .ok reflectionPayload
    ∧ parseCols insertAutonomousThoughtSchema thoughtPayload = .ok thoughtPayload := by
  refine ⟨?_, rfl, rfl, rfl, rfl, rfl, rfl, rfl, rfl, rfl, rfl⟩
  intro n hn hm
  obtain ⟨errs, herr, _⟩ := parseCols_missing_required_name cs p n hn hm
  rw [herr] at h
  exact Except.noConfusion h

/-- Witness for C5 (amended) at the CoreMemory example payload. -/
theorem c5_required_fields_witness :
    parseCols insertCoreMemorySchema cmWithContent = .ok cmValidated
    ∧ ∀ n ∈ requiredNames insertCoreMemorySchema,
        getField cmWithContent n ≠ Option.none :=
  ⟨rfl, (c5_required_fields insertCoreMemorySchema cmWithContent cmValidated
    rfl).1⟩

/-- C6: for each of the five entities the derived insert shape holds
exactly the fields of the full-record shape minus the serial primary key
id, the insert validator never lists id among the required fields, and a
validated insert object never contains an id field. -/
theorem c6_insert_shape_omits_id (cs : List Column) (hcs : cs ∈ insertSchemas)
    (p : Payload) (out : Payload) (h : parseCols cs p = .ok out) :
    insertCoreMemorySchema.map Column.name =
        (coreMemories.map Column.name).filter (fun n => !(n == "id"))
    ∧ insertConsciousnessStateSchema.map Column.name =
        (consciousnessStates.map Column.name).filter (fun n => !(n == "id"))
    ∧ insertMemoryConnectionSchema.map Column.name =
        (memoryConnections.map Column.name).filter (fun n => !(n == "id"))
    ∧ insertSelfReflectionSchema.map Column.name =
        (selfReflections.map Column.name).filter (fun n => !(n == "id"))
    ∧ insertAutonomousThoughtSchema.map Column.name =
        (autonomousThoughts.map Column.name).filter (fun n => !(n == "id"))
    ∧ (∀ cs2 ∈ insertSchemas, "id" ∉ requiredNames cs2)
    ∧ getField out "id" = Option.none := by
  refine ⟨rfl, rfl, rfl, rfl, rfl, by decide, ?_⟩
  simp only [insertSchemas, List.mem_cons, List.not_mem_nil, or_false] at hcs
  rcases hcs with rfl | rfl | rfl | rfl | rfl
  all_goals exact parseCols_ok_no_id _ p out h (by decide)

/-- Witness for C6 at the concrete CoreMemory example payload. -/
theorem c6_insert_shape_omits_id_witness :
    insertCoreMemorySchema ∈ insertSchemas
    ∧ parseCols insertCoreMemorySchema cmWithContent = .ok cmValidated
    ∧ getField cmValidated "id" = Option.none :=
  ⟨by simp [insertSchemas], rfl,
    (c6_insert_shape_omits_id insertCoreMemorySchema (by simp [insertSchemas])
      cmWithContent cmValidated rfl).2.2.2.2.2.2⟩

/-- C7: array-valued fields accept the empty sequence and any sequence of
text values, and the validated output carries the input sequence unchanged
and in order: for every list of strings supplied as CoreMemory tags or as
ConsciousnessState currentPath, validation succeeds and the validated
object binds the field to exactly that sequence. -/
theorem c7_array_fields_order (xs ys : List String) :
    parseCols insertCoreMemorySchema
        (("tags", .varr (xs.map .vstr)) :: cmWithContent)
      = .ok (cmValidatedTags xs)
    ∧ getField (cmValidatedTags xs) "tags"
        = Option.some (.varr (xs.map .vstr))
    ∧ parseCols insertConsciousnessStateSchema
        (("currentPath", .varr (ys.map .vstr)) :: statePayload)
      = .ok (stateValidatedPath ys)
    ∧ getField (stateValidatedPath ys) "currentPath"
        = Option.some (.varr (ys.map .vstr)) := by
  refine ⟨?_, rfl, ?_, rfl⟩
  · simp +decide [insertCoreMemorySchema, omitCols, coreMemories, parseCols,
      checkCol, getField, baseTypecheck, all_isStrV_map, cmWithContent,
      cmNoContent, cmValidatedTags]
  · simp +decide [insertConsciousnessStateSchema, omitCols,
      consciousnessStates, parseCols, checkCol, getField, baseTypecheck,
      all_isStrV_map, statePayload, stateValidatedPath]

/-- C8: for each of the five entities, every full record round-trips
through serialization to the persisted row and deserialization back
without loss or alteration of any field; in particular this holds for the
records obtained from a valid insert plus an assigned primary key. -/
theorem c8_roundtrip_all_entities :
    (∀ r : CoreMemoryRec, fromRowCoreMemory (toRowCoreMemory r) = Option.some r)
    ∧ (∀ r : ConsciousnessStateRec,
        fromRowConsciousnessState (toRowConsciousnessState r) = Option.some r)
    ∧ (∀ r : MemoryConnectionRec,
        fromRowMemoryConnection (toRowMemoryConnection r) = Option.some r)
    ∧ (∀ r : SelfReflectionRec,
        fromRowSelfReflection (toRowSelfReflection r) = Option.some r)
    ∧ (∀ r : AutonomousThoughtRec,
        fromRowAutonomousThought (toRowAutonomousThought r) = Option.some r) :=
  ⟨fromRow_toRow_coreMemory, fromRow_toRow_consciousnessState,
   fromRow_toRow_memoryConnection, fromRow_toRow_selfReflection,
   fromRow_toRow_autonomousThought⟩

/-- C9: for every entity, an otherwise valid insert payload that
additionally carries an id field is still accepted with the same validated
object, and the validated object contains no id field: the extraneous
primary-key field is silently stripped rather than rejected. -/
theorem c9_extraneous_id_stripped (cs : List Column) (hcs : cs ∈ insertSchemas)
    (p : Payload) (v : Value) (out : Payload)
    (h : parseCols cs p = .ok out) :
    parseCols cs (("id", v) :: p) = .ok out
    ∧ getField out "id" = Option.none := by
  simp only [insertSchemas, List.mem_cons, List.not_mem_nil, or_false] at hcs
  rcases hcs with rfl | rfl | rfl | rfl | rfl
  all_goals
    exact ⟨by rw [parseCols_cons_ne _ "id" v p (by decide), h],
      parseCols_ok_no_id _ p out h (by decide)⟩

/-- Witness for C9 at the CoreMemory example payload with an id added. -/
theorem c9_extraneous_id_stripped_witness :
    insertCoreMemorySchema ∈ insertSchemas
    ∧ parseCols insertCoreMemorySchema cmWithContent = .ok cmValidated
    ∧ (parseCols insertCoreMemorySchema (("id", .vnum 7) :: cmWithContent)
          = .ok cmValidated
        ∧ getField cmValidated "id" = Option.none) :=
  ⟨by simp [insertSchemas], rfl,
    c9_extraneous_id_stripped insertCoreMemorySchema (by simp [insertSchemas])
      cmWithContent (.vnum 7) cmValidated rfl⟩

/-- C10: each insert validator is a pure deterministic function of its
input payload: equal input mappings yield equal validation outcomes, both
on the accepted object and on the reported offending field list, for all
five schemas. -/
theorem c10_validators_deterministic (p1 p2 : Payload) (h : p1 = p2) :
    ∀ cs ∈ insertSchemas, parseCols cs p1 = parseCols cs p2 := by
  subst h
  exact fun cs _ => rfl

/-- Witness for C10 at the empty payload. -/
theorem c10_validators_deterministic_witness :
    ([] : Payload) = []
    ∧ ∀ cs ∈ insertSchemas, parseCols cs [] = parseCols cs [] :=
  ⟨rfl, c10_validators_deterministic [] [] rfl⟩

end MemorySchema

